/-
  Verification of the ClaudeMetrics usage-tracking relay (server.js).

  Shallow embedding of the server's core logic:
    * the pricing table `PRICES` and `calcCost`,
    * the SQLite-backed ledger (`requests` table + `daily_summary` upsert)
      exposed through `insertRequest`, `updateDaily` and `logRequest`,
    * the `/api/manual` route,
    * the `/api/proxy` route, both its streaming branch (SSE line parsing
      with running token counters) and its buffered branch.

  Modelling conventions:
    * JS numbers used as token counts are modelled as `Int`; the REAL
      cost column is modelled as `ℚ` (exact arithmetic).
    * JS `x || d` on numbers/strings is modelled by `jsOrInt` / `jsOrStr`
      (`0`, `""`, `null`/`undefined` are falsy).
    * `crypto.randomUUID()` is modelled by an explicit `genId` argument.
    * both the record's `created_at` date and the `today` key used for the
      daily upsert come from the clock at the moment `logRequest` runs;
      they are modelled by one explicit `today` argument.
    * an absent `daily_summary` row is modelled as the all-zero row: the
      SQL upsert inserts `(cost, 1, input, output)` on a missing date,
      which coincides with adding the increment to the zero row.
    * a JSON payload is modelled by a structure holding exactly the fields
      the server reads, plus an opaque `rest` component for everything the
      server never inspects (so "returns the body unchanged" is meaningful).
-/
import Mathlib

set_option maxRecDepth 8192

namespace ClaudeMetrics

/-- Model of JS `x || d` for numeric `x` (an absent field or `0` falls back). -/
def jsOrInt (x : Option Int) (d : Int) : Int :=
  match x with
  | none => d
  | some v => if v == 0 then d else v

/-- Model of JS `x || d` for string `x` (an absent field or `""` falls back). -/
def jsOrStr (x : Option String) (d : String) : String :=
  match x with
  | none => d
  | some s => if s == "" then d else s

/-- Model of JS `s.startsWith(p)`. -/
def strStartsWith (s p : String) : Bool :=
  p.data.isPrefixOf s.data

/-! ## Pricing table (server.js lines 84-99) -/

/-- The `PRICES` object: model key ↦ (input price, output price) per 1M tokens,
in JS object insertion order. -/
def PRICES : List (String × ℚ × ℚ) :=
  [ ("claude-opus-4-5",           (15,    75)),
    ("claude-sonnet-4-5",         (3,     15)),
    ("claude-haiku-4-5",          (4/5,   4)),
    ("claude-3-opus-20240229",    (15,    75)),
    ("claude-3-5-sonnet-20241022",(3,     15)),
    ("claude-3-haiku-20240307",   (1/4,   5/4)),
    ("claude-3-5-haiku-20241022", (4/5,   4)) ]

/-- `Object.keys(PRICES).find(k => model.startsWith(k) || k.startsWith(model))
    || 'claude-sonnet-4-5'`. -/
def findPriceKey (model : String) : String :=
  match (PRICES.map Prod.fst).find?
      (fun k => strStartsWith model k || strStartsWith k model) with
  | some k => k
  | none => "claude-sonnet-4-5"

/-- `PRICES[key]` (total lookup; every key produced by `findPriceKey` is in
the table, the `(0, 0)` default is unreachable). -/
def priceOf (key : String) : ℚ × ℚ :=
  match PRICES.find? (fun kv => kv.1 == key) with
  | some kv => kv.2
  | none => (0, 0)

/-- `calcCost(model, inputTok, outputTok)` (server.js lines 94-99). -/
def calcCost (model : String) (inputTok outputTok : Int) : ℚ :=
  let p := priceOf (findPriceKey model)
  ((inputTok : ℚ) * p.1 + (outputTok : ℚ) * p.2) / 1000000

/-! ## Ledger: the `requests` table and the `daily_summary` table -/

/-- One row of the `requests` table (the stored UsageRecord).
`created_date` models `date(created_at)`. -/
structure ReqRecord where
  request_id : String
  model : String
  input_tokens : Int
  output_tokens : Int
  cache_read_tokens : Int
  cache_write_tokens : Int
  cost_usd : ℚ
  source : String
  endpoint : String
  created_date : String
deriving DecidableEq

/-- One row of the `daily_summary` table. -/
structure DailyRow where
  total_cost : ℚ
  total_requests : Int
  total_input_tokens : Int
  total_output_tokens : Int
deriving DecidableEq

/-- The all-zero daily row (models an absent row for a date). -/
def DailyRow.zero : DailyRow :=
  { total_cost := 0, total_requests := 0,
    total_input_tokens := 0, total_output_tokens := 0 }

/-- Database state: the `requests` rows in insertion order, and the
`daily_summary` keyed by date. -/
structure Db where
  requests : List ReqRecord
  daily : String → DailyRow

/-- The empty database. -/
def emptyDb : Db :=
  { requests := [], daily := fun _ => DailyRow.zero }

/-- `INSERT OR IGNORE INTO requests ...` (server.js lines 102-107): a row
whose `request_id` is already present is silently dropped. -/
def insertRequest (r : ReqRecord) (db : Db) : Db :=
  if db.requests.any (fun q => q.request_id == r.request_id) then db
  else { db with requests := db.requests ++ [r] }

/-- `INSERT INTO daily_summary ... ON CONFLICT(date) DO UPDATE ...`
(server.js lines 109-118): upsert that adds the increment to the row for
`date` (inserting the increment over zero when the row is absent). -/
def updateDaily (date : String) (cost : ℚ) (input output : Int) (db : Db) : Db :=
  { db with
    daily := fun d =>
      if d == date then
        { total_cost := (db.daily d).total_cost + cost,
          total_requests := (db.daily d).total_requests + 1,
          total_input_tokens := (db.daily d).total_input_tokens + input,
          total_output_tokens := (db.daily d).total_output_tokens + output }
      else db.daily d }

/-- The argument object of `logRequest(data)`. Optional fields model absent
JS properties. A `cost_usd` property, if a caller ever supplied one, is
listed here to record that `logRequest` never reads it. -/
structure LogData where
  request_id : Option String
  model : String
  input_tokens : Option Int
  output_tokens : Option Int
  cache_read_tokens : Option Int
  cache_write_tokens : Option Int
  cost_usd : Option ℚ
  source : Option String
  endpoint : Option String
deriving DecidableEq

/-- The `record` object built at the top of `logRequest` (server.js
lines 121-131). `genId` models `crypto.randomUUID()`. -/
def mkRecord (data : LogData) (genId today : String) : ReqRecord :=
  { request_id := jsOrStr data.request_id genId,
    model := data.model,
    input_tokens := jsOrInt data.input_tokens 0,
    output_tokens := jsOrInt data.output_tokens 0,
    cache_read_tokens := jsOrInt data.cache_read_tokens 0,
    cache_write_tokens := jsOrInt data.cache_write_tokens 0,
    cost_usd := calcCost data.model (jsOrInt data.input_tokens 0)
      (jsOrInt data.output_tokens 0),
    source := jsOrStr data.source "proxy",
    endpoint := jsOrStr data.endpoint "/v1/messages",
    created_date := today }

/-- `logRequest(data)` (server.js lines 120-146): inside one transaction,
insert-or-ignore the record, then unconditionally run the daily upsert for
`today` with the record's cost and token counts; return the record. -/
def logRequest (data : LogData) (genId today : String) (db : Db) :
    Db × ReqRecord :=
  let record := mkRecord data genId today
  (updateDaily today record.cost_usd record.input_tokens record.output_tokens
    (insertRequest record db), record)

/-! ## Route: POST /api/manual (server.js lines 213-229) -/

/-- Result of the manual-entry route: a 400 rejection when `model` is
falsy, or the updated database and the stored record. -/
inductive ManualResult where
  | badRequest
  | ok (db : Db) (record : ReqRecord)

/-- `POST /api/manual`: `model`, `input_tokens`, `output_tokens` are read
from the request body; the token fields are the results of
`parseInt(...)`, modelled as `Option Int` (`none` = NaN). -/
def manualHandler (model : Option String) (inTok outTok : Option Int)
    (genId today : String) (db : Db) : ManualResult :=
  match model with
  | none => .badRequest
  | some m =>
    if m == "" then .badRequest
    else
      let r := logRequest
        { request_id := none, model := m,
          input_tokens := some (jsOrInt inTok 0),
          output_tokens := some (jsOrInt outTok 0),
          cache_read_tokens := none, cache_write_tokens := none,
          cost_usd := none, source := some "manual", endpoint := none }
        genId today db
      .ok r.1 r.2

/-! ## Route: POST /api/proxy (server.js lines 234-327) -/

/-- The fields of the caller's request body that the route reads
(`body.model`, `body.stream`); `request_id` is a field a caller may put in
the payload (the route forwards the whole body upstream but never reads
this field); `rest` is the remainder of the payload, never inspected. -/
structure ProxyReqBody where
  model : Option String
  stream : Bool
  request_id : Option String
  rest : String
deriving DecidableEq

/-- Usage fields carried by a streamed event (`message.usage` /
`usage`); optional fields model absent JS properties. -/
structure UsageFields where
  input_tokens : Option Int
  output_tokens : Option Int
deriving DecidableEq

/-- Outcome of `JSON.parse(line.slice(6))` on a `data: ` line, restricted
to the shape the handler inspects: either a parse failure, or an event
with its `type`, its `message?.usage` and its `usage`. -/
inductive Parsed where
  | malformed
  | evt (type : String) (messageUsage : Option UsageFields)
      (usage : Option UsageFields)
deriving DecidableEq

/-- One line of a streamed chunk after `text.split('\n')`: either a line
that does not start with `"data: "` (skipped), or a `data: ` line with
the outcome of parsing its payload. -/
inductive SseLine where
  | other (text : String)
  | dataLine (payload : Parsed)
deriving DecidableEq

/-- The running counters `inputTok` / `outputTok` of the streaming branch
(server.js line 265). -/
structure StreamState where
  inputTok : Int
  outputTok : Int
deriving DecidableEq

/-- The per-line callback of the streaming branch (server.js lines
272-284): non-`data:` lines and malformed fragments leave the state
unchanged; a `message_start` event with usage initializes both counters;
a `message_delta` event with usage overwrites the output counter via
`outputTok = evt.usage.output_tokens || outputTok`. -/
def handleLine (s : StreamState) (l : SseLine) : StreamState :=
  match l with
  | .other _ => s
  | .dataLine .malformed => s
  | .dataLine (.evt ty mu u) =>
    let s1 :=
      if ty == "message_start" then
        match mu with
        | some uf =>
          { inputTok := jsOrInt uf.input_tokens 0,
            outputTok := jsOrInt uf.output_tokens 0 }
        | none => s
      else s
    if ty == "message_delta" then
      match u with
      | some uf => { s1 with outputTok := jsOrInt uf.output_tokens s1.outputTok }
      | none => s1
    else s1

/-- The `data` callback for one chunk: `res.write(text)` happens first
(forwarding is unconditional), then every line is fed to the extractor. -/
def handleChunk (s : StreamState) (c : List SseLine) : StreamState :=
  c.foldl handleLine s

/-- What the streaming branch produced once the upstream stream ended:
the chunks written to the caller in order, the HTTP status of the
caller's response, and the resulting database. -/
structure StreamResult where
  forwarded : List (List SseLine)
  status : Nat
  db : Db

/-- The streaming branch (server.js lines 259-298). The upstream HTTP
status is accepted as an argument because the code has it in scope
(`upstream.status`) but never reads it in this branch: every chunk is
written to the caller, the response status is Express's default 200, and
at `end` a record is logged iff `inputTok || outputTok` is truthy. -/
def proxyStreaming (reqBody : ProxyReqBody) (upstreamStatus : Nat)
    (chunks : List (List SseLine)) (genId today : String) (db : Db) :
    StreamResult :=
  let model := jsOrStr reqBody.model "claude-sonnet-4-5"
  let final := chunks.foldl handleChunk { inputTok := 0, outputTok := 0 }
  let db' :=
    if final.inputTok ≠ 0 ∨ final.outputTok ≠ 0 then
      (logRequest
        { request_id := some genId, model := model,
          input_tokens := some final.inputTok,
          output_tokens := some final.outputTok,
          cache_read_tokens := none, cache_write_tokens := none,
          cost_usd := none, source := some "proxy", endpoint := none }
        genId today db).1
    else db
  { forwarded := chunks, status := 200, db := db' }

/-- The `usage` object of a buffered response body, restricted to the
fields the route reads. -/
structure UsageObj where
  input_tokens : Option Int
  output_tokens : Option Int
  cache_read_input_tokens : Option Int
  cache_creation_input_tokens : Option Int
deriving DecidableEq

/-- A buffered upstream response body (`await upstream.json()`): the
fields the route reads (`data.model`, `data.usage`) plus the opaque
remainder of the payload. -/
structure RespBody where
  model : Option String
  usage : Option UsageObj
  rest : String
deriving DecidableEq

/-- The body of the response the route sends to its caller in buffered
mode: either the upstream JSON body passed through, or the
`{ error: 'Proxy error: ...' }` object from the catch-all handler. -/
inductive CallerBody where
  | upstreamBody (b : RespBody)
  | proxyError (msg : String)
deriving DecidableEq

/-- Status, body and resulting database of a buffered proxy call. -/
structure BufferedResult where
  status : Nat
  body : CallerBody
  db : Db

/-- node-fetch `response.ok`: status in the range 200-299. -/
def upstreamOk (status : Nat) : Bool :=
  200 ≤ status && status ≤ 299

/-- The empty `usage` object (`data.usage || {}`). -/
def emptyUsage : UsageObj :=
  { input_tokens := none, output_tokens := none,
    cache_read_input_tokens := none, cache_creation_input_tokens := none }

/-- The `logRequest` argument built by the buffered branch
(server.js lines 308-317). -/
def bufferedLogData (reqBody : ProxyReqBody) (data : RespBody)
    (genId : String) : LogData :=
  let model := jsOrStr reqBody.model "claude-sonnet-4-5"
  let usage := data.usage.getD emptyUsage
  { request_id := some genId,
    model := jsOrStr data.model model,
    input_tokens := some (jsOrInt usage.input_tokens 0),
    output_tokens := some (jsOrInt usage.output_tokens 0),
    cache_read_tokens := some (jsOrInt usage.cache_read_input_tokens 0),
    cache_write_tokens := some (jsOrInt usage.cache_creation_input_tokens 0),
    cost_usd := none, source := some "proxy", endpoint := none }

/-- The buffered (non-streaming) branch (server.js lines 300-321),
together with the surrounding try/catch (lines 323-326). `ledgerOk`
selects whether the `logRequest` transaction succeeds; when it throws,
control reaches the catch-all, which replaces the caller's response with
a 502 `Proxy error` and leaves the database unchanged (the transaction
rolled back). On a non-success upstream status the route returns the
upstream status and body before any logging. -/
def bufferedBranch (reqBody : ProxyReqBody) (upstreamStatus : Nat)
    (data : RespBody) (genId today : String) (ledgerOk : Bool) (db : Db) :
    BufferedResult :=
  if !(upstreamOk upstreamStatus) then
    { status := upstreamStatus, body := .upstreamBody data, db := db }
  else
    if ledgerOk then
      { status := upstreamStatus, body := .upstreamBody data,
        db := (logRequest (bufferedLogData reqBody data genId) genId today db).1 }
    else
      { status := 502, body := .proxyError "Proxy error", db := db }

/-! ## Sequences of ledger insertions (for the aggregate invariant) -/

/-- One ledger insertion: the `logRequest` argument together with the
`crypto.randomUUID()` value and the calendar date of that call. -/
def LogOp : Type := LogData × String × String

/-- Run a finite sequence of `logRequest` calls against a database. -/
def runLog (ops : List LogOp) (db : Db) : Db :=
  ops.foldl (fun d op => (logRequest op.1 op.2.1 op.2.2 d).1) db

/-- The request id an insertion actually stores:
`data.request_id || crypto.randomUUID()`. -/
def effectiveId (op : LogOp) : String :=
  jsOrStr op.1.request_id op.2.1

/-- The stored records whose creation date is `d`. -/
def recordsOn (db : Db) (d : String) : List ReqRecord :=
  db.requests.filter (fun r => r.created_date == d)

/-- The aggregate-consistency invariant: for every date, the daily row's
request count equals the number of records created that date and its cost
total equals the sum of their costs. -/
def consistent (db : Db) : Prop :=
  ∀ d : String,
    (db.daily d).total_requests = ((recordsOn db d).length : Int) ∧
    (db.daily d).total_cost = ((recordsOn db d).map ReqRecord.cost_usd).sum

/-! ## Concrete inputs used by the individual claims -/

/-- A `logRequest` argument with an explicit request id (C1). -/
def c1Data : LogData :=
  { request_id := some "r1", model := "claude-sonnet-4-5",
    input_tokens := some 10, output_tokens := some 20,
    cache_read_tokens := none, cache_write_tokens := none,
    cost_usd := none, source := some "manual", endpoint := none }

/-- The ledger after recording `c1Data` twice on the same date (C1). -/
def c1Db : Db :=
  (logRequest c1Data "g2" "2026-03-01"
    (logRequest c1Data "g1" "2026-03-01" emptyDb).1).1

/-- A `logRequest` argument with an explicit request id (C2). -/
def c2Data : LogData :=
  { request_id := some "dup", model := "claude-haiku-4-5",
    input_tokens := some 5, output_tokens := some 7,
    cache_read_tokens := none, cache_write_tokens := none,
    cost_usd := none, source := some "manual", endpoint := none }

/-- The ledger after recording `c2Data` twice on the same date (C2). -/
def c2Db : Db :=
  (logRequest c2Data "gA" "2026-04-01"
    (logRequest c2Data "gB" "2026-04-01" emptyDb).1).1

/-- Two insertions with distinct request ids on one date (C2 witness). -/
def c2Ops : List LogOp :=
  [ ({ request_id := some "id-1", model := "claude-sonnet-4-5",
       input_tokens := some 1, output_tokens := some 2,
       cache_read_tokens := none, cache_write_tokens := none,
       cost_usd := none, source := some "manual", endpoint := none },
     "gC", "2026-05-01"),
    ({ request_id := some "id-2", model := "claude-sonnet-4-5",
       input_tokens := some 3, output_tokens := some 4,
       cache_read_tokens := none, cache_write_tokens := none,
       cost_usd := none, source := some "manual", endpoint := none },
     "gD", "2026-05-01") ]

/-- A caller request body for the buffered branch (C3). -/
def c3Req : ProxyReqBody :=
  { model := some "claude-sonnet-4-5", stream := false,
    request_id := none, rest := "c3-payload" }

/-- A successful buffered upstream response body (C3). -/
def c3Body : RespBody :=
  { model := some "claude-sonnet-4-5",
    usage := some { input_tokens := some 11, output_tokens := some 13,
                    cache_read_input_tokens := none,
                    cache_creation_input_tokens := none },
    rest := "c3-response" }

/-- A caller request body selecting the streaming branch (C4). -/
def c4Req : ProxyReqBody :=
  { model := some "claude-sonnet-4-5", stream := true,
    request_id := none, rest := "c4-payload" }

/-- A streamed chunk carrying a usage-bearing `message_start` event (C4). -/
def c4Chunk : List SseLine :=
  [ .dataLine (.evt "message_start"
      (some { input_tokens := some 5, output_tokens := some 1 }) none) ]

/-- A caller request body that supplies its own request identifier (C7). -/
def c7Req : ProxyReqBody :=
  { model := some "claude-sonnet-4-5", stream := false,
    request_id := some "client-1", rest := "c7-payload" }

/-- A successful buffered upstream response body (C7). -/
def c7Body : RespBody :=
  { model := some "claude-sonnet-4-5",
    usage := some { input_tokens := some 3, output_tokens := some 4,
                    cache_read_input_tokens := none,
                    cache_creation_input_tokens := none },
    rest := "c7-response" }

/-- A `logRequest` argument carrying a client-chosen request id (C7 witness). -/
def c7LogData : LogData :=
  { request_id := some "client-2", model := "claude-sonnet-4-5",
    input_tokens := some 1, output_tokens := some 1,
    cache_read_tokens := none, cache_write_tokens := none,
    cost_usd := none, source := some "manual", endpoint := none }

/-- The `logRequest` argument the manual route builds from a negative
submitted token count (C8). -/
def c8Data : LogData :=
  { request_id := none, model := "claude-sonnet-4-5",
    input_tokens := some (-1000000), output_tokens := some 0,
    cache_read_tokens := none, cache_write_tokens := none,
    cost_usd := none, source := some "manual", endpoint := none }

/-- The ledger after the negative manual entry (C8). -/
def c8Db : Db := (logRequest c8Data "g8" "2026-07-01" emptyDb).1

/-- The record stored by the negative manual entry (C8). -/
def c8Rec : ReqRecord := (logRequest c8Data "g8" "2026-07-01" emptyDb).2

/-- A `logRequest` argument with non-negative token counts (C8 witness). -/
def c8PosData : LogData :=
  { request_id := none, model := "claude-sonnet-4-5",
    input_tokens := some 10, output_tokens := some 20,
    cache_read_tokens := some 1, cache_write_tokens := some 2,
    cost_usd := none, source := some "manual", endpoint := none }

/-! ## Helper lemmas -/

theorem jsOrStr_some_self (g : String) : jsOrStr (some g) g = g := by
  unfold jsOrStr
  exact ite_self g

theorem jsOrInt_some_jsOrInt (x : Option Int) :
    jsOrInt (some (jsOrInt x 0)) 0 = jsOrInt x 0 := by
  unfold jsOrInt
  cases x with
  | none => simp
  | some v =>
    by_cases h : v = 0 <;> simp [h]

theorem priceOf_nonneg (key : String) :
    0 ≤ (priceOf key).1 ∧ 0 ≤ (priceOf key).2 := by
  unfold priceOf
  cases h : PRICES.find? (fun kv => kv.1 == key) with
  | none => norm_num
  | some kv =>
    have hmem : kv ∈ PRICES := List.mem_of_find?_eq_some h
    simp only [PRICES, List.mem_cons, List.not_mem_nil, or_false] at hmem
    rcases hmem with rfl | rfl | rfl | rfl | rfl | rfl | rfl <;> norm_num

theorem calcCost_nonneg (model : String) (i o : Int)
    (hi : 0 ≤ i) (ho : 0 ≤ o) : 0 ≤ calcCost model i o := by
  have hp := priceOf_nonneg (findPriceKey model)
  have hi' : (0 : ℚ) ≤ (i : ℚ) := by exact_mod_cast hi
  have ho' : (0 : ℚ) ≤ (o : ℚ) := by exact_mod_cast ho
  simp only [calcCost]
  exact div_nonneg
    (add_nonneg (mul_nonneg hi' hp.1) (mul_nonneg ho' hp.2)) (by norm_num)

theorem insertRequest_requests (r : ReqRecord) (db : Db) :
    (insertRequest r db).requests = db.requests ∨
    (insertRequest r db).requests = db.requests ++ [r] := by
  unfold insertRequest
  split
  · exact Or.inl rfl
  · exact Or.inr rfl

theorem updateDaily_requests (date : String) (cost : ℚ) (input output : Int)
    (db : Db) : (updateDaily date cost input output db).requests = db.requests :=
  rfl

theorem logRequest_requests (data : LogData) (genId today : String) (db : Db) :
    (logRequest data genId today db).1.requests = db.requests ∨
    (logRequest data genId today db).1.requests =
      db.requests ++ [mkRecord data genId today] := by
  unfold logRequest
  simpa [updateDaily_requests] using
    insertRequest_requests (mkRecord data genId today) db

theorem handleLine_malformed (s : StreamState) :
    handleLine s (.dataLine .malformed) = s := rfl

theorem foldl_handleLine_malformed (l1 l2 : List SseLine) (s : StreamState) :
    (l1 ++ SseLine.dataLine .malformed :: l2).foldl handleLine s =
      (l1 ++ l2).foldl handleLine s := by
  rw [List.foldl_append, List.foldl_append]
  rfl

theorem handleChunk_malformed (pre post : List SseLine) (s : StreamState) :
    handleChunk s (pre ++ SseLine.dataLine .malformed :: post) =
      handleChunk s (pre ++ post) :=
  foldl_handleLine_malformed pre post s

/-! ## Lemmas for the aggregate-consistency invariant -/

theorem recordsOn_append (db : Db) (rs : List ReqRecord) (d : String) :
    recordsOn { db with requests := db.requests ++ rs } d =
      recordsOn db d ++ rs.filter (fun r => r.created_date == d) := by
  unfold recordsOn
  exact List.filter_append ..

theorem consistent_empty : consistent emptyDb := by
  intro d
  constructor <;> rfl

/-- A `logRequest` call whose effective request id is fresh appends exactly
one record dated `today`, and preserves aggregate consistency. -/
theorem logRequest_step_fresh (data : LogData) (genId today : String) (db : Db)
    (hfresh : ∀ r ∈ db.requests, r.request_id ≠ jsOrStr data.request_id genId)
    (hc : consistent db) :
    (logRequest data genId today db).1.requests =
      db.requests ++ [mkRecord data genId today] ∧
    consistent (logRequest data genId today db).1 := by
  have hid : (mkRecord data genId today).request_id =
      jsOrStr data.request_id genId := rfl
  have hany : db.requests.any
      (fun q => q.request_id == (mkRecord data genId today).request_id) = false := by
    rw [List.any_eq_false]
    intro r hr
    simp only [beq_iff_eq, hid]
    exact hfresh r hr
  have hdb1 : (logRequest data genId today db).1 =
      { requests := db.requests ++ [mkRecord data genId today],
        daily := fun d =>
          if d == today then
            { total_cost := (db.daily d).total_cost +
                (mkRecord data genId today).cost_usd,
              total_requests := (db.daily d).total_requests + 1,
              total_input_tokens := (db.daily d).total_input_tokens +
                (mkRecord data genId today).input_tokens,
              total_output_tokens := (db.daily d).total_output_tokens +
                (mkRecord data genId today).output_tokens }
          else db.daily d } := by
    unfold logRequest updateDaily insertRequest
    simp [hany]
  refine ⟨by rw [hdb1], ?_⟩
  intro d
  rw [hdb1]
  have hdate : (mkRecord data genId today).created_date = today := rfl
  by_cases hd : d = today
  · have h1 := (hc d).1
    have h2 := (hc d).2
    rw [hd] at h1 h2
    simp only [recordsOn, List.filter_append] at h1 h2 ⊢
    simp only [hd, beq_self_eq_true, if_true, List.filter_cons, List.filter_nil,
      hdate, List.length_append, List.map_append, List.sum_append]
    constructor
    · rw [h1]
      simp only [List.length_singleton]
      push_cast
      ring
    · rw [h2]
      simp
  · have hd' : (d == today) = false := by
      rw [beq_eq_false_iff_ne]
      exact hd
    have hd'' : (today == d) = false := by
      rw [beq_eq_false_iff_ne]
      exact fun h => hd h.symm
    have h1 := (hc d).1
    have h2 := (hc d).2
    simp only [recordsOn, List.filter_append] at h1 h2 ⊢
    simp [hd', hd'', hdate]
    exact ⟨h1, h2⟩

/-- Running a sequence of insertions whose effective ids are fresh for the
database and pairwise distinct preserves aggregate consistency. -/
theorem runLog_consistent (ops : List LogOp) (db : Db)
    (hc : consistent db)
    (hids : ∀ op ∈ ops, ∀ r ∈ db.requests, r.request_id ≠ effectiveId op)
    (hnd : (ops.map effectiveId).Nodup) :
    consistent (runLog ops db) := by
  induction ops generalizing db with
  | nil => exact hc
  | cons op ops ih =>
    have hfresh : ∀ r ∈ db.requests,
        r.request_id ≠ jsOrStr op.1.request_id op.2.1 :=
      hids op (List.mem_cons_self op ops)
    obtain ⟨hreq, hc'⟩ :=
      logRequest_step_fresh op.1 op.2.1 op.2.2 db hfresh hc
    have hrun : runLog (op :: ops) db =
        runLog ops (logRequest op.1 op.2.1 op.2.2 db).1 := rfl
    rw [hrun]
    rw [List.map_cons, List.nodup_cons] at hnd
    refine ih (logRequest op.1 op.2.1 op.2.2 db).1 hc' ?_ hnd.2
    intro op' hop' r hr
    rw [hreq] at hr
    rcases List.mem_append.mp hr with hold | hnew
    · exact hids op' (List.mem_cons_of_mem op hop') r hold
    · have hrid : r.request_id = effectiveId op := by
        rw [List.mem_singleton.mp hnew]
        rfl
      rw [hrid]
      intro hcontra
      exact hnd.1 (hcontra ▸ List.mem_map_of_mem effectiveId hop')

/-- When the `logRequest` argument carries `request_id = some genId`, the
call either changes nothing (duplicate) or appends one record whose stored
id is `genId`. -/
theorem logRequest_requests_or (data : LogData) (genId today : String)
    (db : Db) (hid : data.request_id = some genId) :
    (logRequest data genId today db).1.requests = db.requests ∨
    ∃ rec : ReqRecord,
      (logRequest data genId today db).1.requests = db.requests ++ [rec] ∧
      rec.request_id = genId := by
  rcases logRequest_requests data genId today db with h | h
  · exact Or.inl h
  · exact Or.inr ⟨mkRecord data genId today, h,
      by simp [mkRecord, hid, jsOrStr_some_self]⟩

/-- When the `logRequest` argument carries no cache-token fields, the call
either changes nothing (duplicate) or appends one record whose cache-token
fields are zero. -/
theorem logRequest_requests_cache (data : LogData) (genId today : String)
    (db : Db) (hcr : data.cache_read_tokens = none)
    (hcw : data.cache_write_tokens = none) :
    (logRequest data genId today db).1.requests = db.requests ∨
    ∃ rec : ReqRecord,
      (logRequest data genId today db).1.requests = db.requests ++ [rec] ∧
      rec.cache_read_tokens = 0 ∧ rec.cache_write_tokens = 0 := by
  rcases logRequest_requests data genId today db with h | h
  · exact Or.inl h
  · exact Or.inr ⟨mkRecord data genId today, h,
      by simp [mkRecord, hcr, jsOrInt], by simp [mkRecord, hcw, jsOrInt]⟩

/-! ## Claim theorems -/

/-- C1 (code bug): recording a usage record whose requestId is already in the
ledger is NOT idempotent in the code: the `INSERT OR IGNORE` drops the
duplicate row, but `updateDaily` still runs inside the same transaction, so
the daily aggregate is incremented a second time. Evaluated at the failing
input: `c1Data` (requestId `r1`, 10 input / 20 output tokens) recorded twice
on `2026-03-01` leaves one stored record but a daily row counting two
requests and twice the tokens. -/
theorem duplicate_requestId_double_counts_daily :
    c1Db.requests.length = 1 ∧
    (c1Db.daily "2026-03-01").total_requests = 2 ∧
    (c1Db.daily "2026-03-01").total_input_tokens = 20 ∧
    (c1Db.daily "2026-03-01").total_output_tokens = 40 := by
  decide

/-- C2 (counterexample): the aggregate-consistency claim quantifies over
every finite sequence of record insertions; a sequence that records the
same requestId twice (`c2Data` on `2026-04-01`, twice) violates it — the
daily row counts 2 requests while only one record of that date is stored. -/
theorem aggregate_consistency_fails_on_duplicate :
    ¬ ((c2Db.daily "2026-04-01").total_requests =
        ((recordsOn c2Db "2026-04-01").length : Int)) := by
  decide

/-- C2 (amended): after every finite sequence of record insertions starting
from the empty ledger whose effective request ids are pairwise distinct
(so no insertion hits the duplicate-ignore path), for every calendar date
the daily row's `total_requests` equals the number of stored records
created that date and its `total_cost` equals the sum of their
`cost_usd`. -/
theorem aggregate_consistency_distinct_ids (ops : List LogOp)
    (hnd : (ops.map effectiveId).Nodup) (d : String) :
    ((runLog ops emptyDb).daily d).total_requests =
      ((recordsOn (runLog ops emptyDb) d).length : Int) ∧
    ((runLog ops emptyDb).daily d).total_cost =
      ((recordsOn (runLog ops emptyDb) d).map ReqRecord.cost_usd).sum :=
  runLog_consistent ops emptyDb consistent_empty
    (fun _ _ r hr => absurd hr (List.not_mem_nil r)) hnd d

/-- Witness for C2 (amended): two insertions with distinct request ids on
`2026-05-01`. -/
theorem aggregate_consistency_distinct_ids_witness :
    ((runLog c2Ops emptyDb).daily "2026-05-01").total_requests =
      ((recordsOn (runLog c2Ops emptyDb) "2026-05-01").length : Int) ∧
    ((runLog c2Ops emptyDb).daily "2026-05-01").total_cost =
      ((recordsOn (runLog c2Ops emptyDb) "2026-05-01").map
        ReqRecord.cost_usd).sum :=
  aggregate_consistency_distinct_ids c2Ops (by decide) "2026-05-01"

/-- C5: streamed usage accumulation: a `message_start` event carrying usage
initializes both counters; a `message_delta` event carrying a (truthy)
updated output-token count overwrites the running output counter rather
than adding to it; and on the event sequence
`[message_start{in:100,out:0}, message_delta{out:50}, message_delta{out:120}]`
the finalized counters are `{input:100, output:120}`. -/
theorem streamed_usage_accumulation :
    (∀ (s : StreamState) (uf : UsageFields),
      handleLine s (.dataLine (.evt "message_start" (some uf) none)) =
        { inputTok := jsOrInt uf.input_tokens 0,
          outputTok := jsOrInt uf.output_tokens 0 })
    ∧ (∀ (s : StreamState) (v : Int), v ≠ 0 →
      handleLine s (.dataLine (.evt "message_delta" none
          (some { input_tokens := none, output_tokens := some v }))) =
        { s with outputTok := v })
    ∧ ([ [SseLine.dataLine (.evt "message_start"
            (some { input_tokens := some 100, output_tokens := some 0 }) none)],
         [SseLine.dataLine (.evt "message_delta" none
            (some { input_tokens := none, output_tokens := some 50 }))],
         [SseLine.dataLine (.evt "message_delta" none
            (some { input_tokens := none, output_tokens := some 120 }))]
       ].foldl handleChunk { inputTok := 0, outputTok := 0 } =
        { inputTok := 100, outputTok := 120 }) := by
  refine ⟨fun s uf => rfl, ?_, by decide⟩
  intro s v hv
  simp [handleLine, jsOrInt, hv]

/-- Witness for C5: a delta carrying output 120 overwrites a running
counter of 50 (input counter 100 untouched). -/
theorem streamed_usage_accumulation_witness :
    handleLine { inputTok := 100, outputTok := 50 }
      (.dataLine (.evt "message_delta" none
        (some { input_tokens := none, output_tokens := some 120 }))) =
      { inputTok := 100, outputTok := 120 } :=
  streamed_usage_accumulation.2.1 { inputTok := 100, outputTok := 50 } 120
    (by decide)

/-- C6: cost determinism: `calcCost` is
`(inputTokens * inputPrice + outputTokens * outputPrice) / 1 000 000` for
the matched pricing entry; `calcCost "claude-sonnet-4-5" 1000000 0` is the
listed input price `3.00` exactly; and a model matching no table entry
(`"gpt-4o"`) resolves to the default mid-tier entry `claude-sonnet-4-5`
and is priced with its rates instead of failing. -/
theorem cost_determinism :
    (∀ (model : String) (i o : Int),
      calcCost model i o =
        ((i : ℚ) * (priceOf (findPriceKey model)).1 +
          (o : ℚ) * (priceOf (findPriceKey model)).2) / 1000000)
    ∧ calcCost "claude-sonnet-4-5" 1000000 0 = 3
    ∧ findPriceKey "gpt-4o" = "claude-sonnet-4-5"
    ∧ calcCost "gpt-4o" 1000 1000 = (1000 * 3 + 1000 * 15) / 1000000 := by
  have hs : findPriceKey "claude-sonnet-4-5" = "claude-sonnet-4-5" := by decide
  have hg : findPriceKey "gpt-4o" = "claude-sonnet-4-5" := by decide
  refine ⟨fun model i o => rfl, ?_, hg, ?_⟩
  · simp [calcCost, hs, priceOf, PRICES]
  · simp [calcCost, hg, priceOf, PRICES]

/-- C9: malformed-fragment resilience: a malformed `data:` fragment leaves
the extractor state unchanged; every chunk (malformed fragments included)
is forwarded to the caller regardless of content; deleting a malformed
fragment from the line sequence does not change the accumulated state; and
inserting a malformed fragment into any chunk of a stream does not change
the resulting database (the logging of later well-formed usage events is
unaffected). -/
theorem malformed_fragment_resilience :
    (∀ (s : StreamState), handleLine s (.dataLine .malformed) = s)
    ∧ (∀ (reqBody : ProxyReqBody) (status : Nat)
        (chunks : List (List SseLine)) (genId today : String) (db : Db),
      (proxyStreaming reqBody status chunks genId today db).forwarded = chunks)
    ∧ (∀ (l1 l2 : List SseLine) (s : StreamState),
      (l1 ++ SseLine.dataLine .malformed :: l2).foldl handleLine s =
        (l1 ++ l2).foldl handleLine s)
    ∧ (∀ (reqBody : ProxyReqBody) (status : Nat)
        (c1 c2 : List (List SseLine)) (pre post : List SseLine)
        (genId today : String) (db : Db),
      (proxyStreaming reqBody status
          (c1 ++ (pre ++ SseLine.dataLine .malformed :: post) :: c2)
          genId today db).db =
        (proxyStreaming reqBody status (c1 ++ (pre ++ post) :: c2)
          genId today db).db) := by
  refine ⟨handleLine_malformed, fun _ _ _ _ _ _ => rfl,
    foldl_handleLine_malformed, ?_⟩
  intro reqBody status c1 c2 pre post genId today db
  have hfold :
      (c1 ++ (pre ++ SseLine.dataLine .malformed :: post) :: c2).foldl
          handleChunk { inputTok := 0, outputTok := 0 } =
        (c1 ++ (pre ++ post) :: c2).foldl handleChunk
          { inputTok := 0, outputTok := 0 } := by
    rw [List.foldl_append, List.foldl_append, List.foldl_cons, List.foldl_cons,
      handleChunk_malformed]
  simp only [proxyStreaming, hfold]

/-- C3 (counterexample): the pass-through claim asserts the caller's
response is the upstream status and body regardless of whether the ledger
write succeeds or fails; in the code `logRequest` runs before `res.json`,
so a throwing ledger write reaches the catch-all and replaces the caller's
response with a 502 proxy error: at a successful (200) upstream response
with a failing ledger write the caller gets 502, not the upstream body. -/
theorem buffered_passthrough_fails_on_ledger_error :
    (bufferedBranch c3Req 200 c3Body "g3" "2026-01-05" false emptyDb).status = 502 ∧
    (bufferedBranch c3Req 200 c3Body "g3" "2026-01-05" false emptyDb).body =
      CallerBody.proxyError "Proxy error" ∧
    (502 : Nat) ≠ 200 := by
  decide

/-- C3 (amended): for every successful non-streamed upstream response, when
the ledger write succeeds the relay returns exactly the upstream status and
body (logging never alters a delivered response); when the ledger write
fails, the caller instead receives a 502 proxy error and the database is
unchanged. -/
theorem buffered_passthrough (reqBody : ProxyReqBody) (status : Nat)
    (data : RespBody) (genId today : String) (db : Db)
    (hok : upstreamOk status = true) :
    ((bufferedBranch reqBody status data genId today true db).status = status ∧
      (bufferedBranch reqBody status data genId today true db).body =
        CallerBody.upstreamBody data) ∧
    ((bufferedBranch reqBody status data genId today false db).status = 502 ∧
      (bufferedBranch reqBody status data genId today false db).body =
        CallerBody.proxyError "Proxy error" ∧
      (bufferedBranch reqBody status data genId today false db).db = db) := by
  unfold bufferedBranch
  rw [hok]
  simp

/-- Witness for C3 (amended): a concrete successful buffered call with a
succeeding ledger write returns status 200 and the upstream body. -/
theorem buffered_passthrough_witness :
    (bufferedBranch c3Req 200 c3Body "g3w" "2026-01-06" true emptyDb).status = 200 ∧
    (bufferedBranch c3Req 200 c3Body "g3w" "2026-01-06" true emptyDb).body =
      CallerBody.upstreamBody c3Body :=
  (buffered_passthrough c3Req 200 c3Body "g3w" "2026-01-06" emptyDb
    (by decide)).1

/-- C4 (code bug): the claim says a non-success upstream status is passed
back verbatim and nothing is logged; the streaming branch never inspects
`upstream.status`: evaluated at a streamed call whose upstream status is
500 (not a success) and whose body carries a usage-bearing
`message_start` event, the caller's status is Express's default 200 and a
UsageRecord IS created. -/
theorem streaming_ignores_upstream_status :
    upstreamOk 500 = false ∧
    (proxyStreaming c4Req 500 [c4Chunk] "g4" "2026-02-01" emptyDb).status = 200 ∧
    (proxyStreaming c4Req 500 [c4Chunk] "g4" "2026-02-01"
      emptyDb).db.requests.length = 1 := by
  decide

/-- C7 (counterexample): a forwarded call whose payload supplies
`request_id = "client-1"` still stores a record carrying the generated
identifier `"gen-1"`, not the client-supplied one — the proxy route reads
only `body.model` and `body.stream` and always calls
`crypto.randomUUID()`. -/
theorem client_requestId_ignored :
    c7Req.request_id = some "client-1" ∧
    ((bufferedBranch c7Req 200 c7Body "gen-1" "2026-06-01" true
        emptyDb).db.requests.map ReqRecord.request_id) = ["gen-1"] ∧
    ("gen-1" : String) ≠ "client-1" := by
  decide

/-- C7 (amended): the relay generates a fresh request identifier for every
forwarded call and the stored record carries that generated identifier,
whether or not the caller's payload supplied one (both branches); only a
direct `logRequest` input (an internal caller) can supply a request id,
which is used when it is a non-empty string. -/
theorem requestId_always_generated :
    (∀ (reqBody : ProxyReqBody) (status : Nat) (data : RespBody)
        (genId today : String) (db : Db),
      (bufferedBranch reqBody status data genId today true db).db.requests =
          db.requests ∨
        ∃ rec : ReqRecord,
          (bufferedBranch reqBody status data genId today true db).db.requests =
            db.requests ++ [rec] ∧ rec.request_id = genId)
    ∧ (∀ (reqBody : ProxyReqBody) (status : Nat)
        (chunks : List (List SseLine)) (genId today : String) (db : Db),
      (proxyStreaming reqBody status chunks genId today db).db.requests =
          db.requests ∨
        ∃ rec : ReqRecord,
          (proxyStreaming reqBody status chunks genId today db).db.requests =
            db.requests ++ [rec] ∧ rec.request_id = genId)
    ∧ (∀ (data : LogData) (genId today : String) (db : Db) (s : String),
        data.request_id = some s → (s == "") = false →
        ((logRequest data genId today db).2).request_id = s) := by
  refine ⟨?_, ?_, ?_⟩
  · intro reqBody status data genId today db
    by_cases hok : upstreamOk status = true
    · simp only [bufferedBranch, hok, Bool.not_true, Bool.false_eq_true,
        if_false, if_true]
      exact logRequest_requests_or _ _ _ _ rfl
    · rw [Bool.not_eq_true] at hok
      simp [bufferedBranch, hok]
  · intro reqBody status chunks genId today db
    dsimp only [proxyStreaming]
    split
    · exact logRequest_requests_or _ _ _ _ rfl
    · exact Or.inl rfl
  · intro data genId today db s hrid hs
    simp [logRequest, mkRecord, jsOrStr, hrid, hs]

/-- Witness for C7 (amended): `logRequest` called directly with a supplied
non-empty id stores that id. -/
theorem requestId_always_generated_witness :
    ((logRequest c7LogData "gw" "2026-06-02" emptyDb).2).request_id =
      "client-2" :=
  requestId_always_generated.2.2 c7LogData "gw" "2026-06-02" emptyDb
    "client-2" rfl (by decide)

/-- C8 (counterexample): the manual route does not reject negative parsed
token counts: submitting `input_tokens = -1000000` stores a record with
`input_tokens = -1000000 < 0` and `cost_usd = -3 < 0`, refuting the
non-negativity claim for stored records. -/
theorem negative_manual_entry_breaks_nonnegativity :
    manualHandler (some "claude-sonnet-4-5") (some (-1000000)) (some 0)
        "g8" "2026-07-01" emptyDb = ManualResult.ok c8Db c8Rec ∧
    c8Rec ∈ c8Db.requests ∧
    c8Rec.input_tokens = -1000000 ∧
    c8Rec.cost_usd = -3 := by
  refine ⟨rfl, ?_, by decide, ?_⟩
  · have h : c8Db.requests = [c8Rec] := rfl
    rw [h]
    exact List.mem_singleton.mpr rfl
  · have hk : findPriceKey "claude-sonnet-4-5" = "claude-sonnet-4-5" := by
      decide
    show calcCost "claude-sonnet-4-5" (jsOrInt (some (-1000000)) 0)
        (jsOrInt (some 0) 0) = -3
    have h1 : jsOrInt (some (-1000000)) 0 = -1000000 := by decide
    have h2 : jsOrInt (some 0) 0 = 0 := by decide
    rw [h1, h2]
    simp [calcCost, hk, priceOf, PRICES]
    norm_num

/-- C8 (amended): `cost_usd` is always derived by the pricing computation
from the stored token counts — a caller-supplied cost field is never read;
and every stored field is non-negative provided the (parsed) submitted
token values are non-negative. The code does not validate signs, so
negative submitted values propagate (see the counterexample). -/
theorem cost_derived_and_nonneg_for_nonneg_inputs :
    (∀ (data : LogData) (genId today : String) (db : Db),
      ((logRequest data genId today db).2).cost_usd =
        calcCost data.model (jsOrInt data.input_tokens 0)
          (jsOrInt data.output_tokens 0))
    ∧ (∀ (data : LogData) (genId today : String) (db : Db),
        0 ≤ jsOrInt data.input_tokens 0 →
        0 ≤ jsOrInt data.output_tokens 0 →
        0 ≤ jsOrInt data.cache_read_tokens 0 →
        0 ≤ jsOrInt data.cache_write_tokens 0 →
        0 ≤ ((logRequest data genId today db).2).input_tokens ∧
        0 ≤ ((logRequest data genId today db).2).output_tokens ∧
        0 ≤ ((logRequest data genId today db).2).cache_read_tokens ∧
        0 ≤ ((logRequest data genId today db).2).cache_write_tokens ∧
        0 ≤ ((logRequest data genId today db).2).cost_usd) := by
  refine ⟨fun data genId today db => rfl, ?_⟩
  intro data genId today db hi ho hcr hcw
  exact ⟨hi, ho, hcr, hcw, calcCost_nonneg data.model _ _ hi ho⟩

/-- Witness for C8 (amended): a manual-style record with non-negative
submitted counts has non-negative cost. -/
theorem cost_derived_and_nonneg_witness :
    0 ≤ ((logRequest c8PosData "gp" "2026-07-02" emptyDb).2).cost_usd :=
  (cost_derived_and_nonneg_for_nonneg_inputs.2 c8PosData "gp" "2026-07-02"
    emptyDb (by decide) (by decide) (by decide) (by decide)).2.2.2.2

/-- C10 (implicit): every UsageRecord created by the streaming branch has
`cache_read_tokens = 0` and `cache_write_tokens = 0` — the streamed
extractor tracks only the input/output counters and passes no cache
fields to `logRequest`; only the buffered branch maps the
`cache_read_input_tokens` / `cache_creation_input_tokens` usage fields
into the stored record. -/
theorem streamed_records_have_zero_cache_tokens :
    (∀ (reqBody : ProxyReqBody) (status : Nat)
        (chunks : List (List SseLine)) (genId today : String) (db : Db),
      (proxyStreaming reqBody status chunks genId today db).db.requests =
          db.requests ∨
        ∃ rec : ReqRecord,
          (proxyStreaming reqBody status chunks genId today db).db.requests =
            db.requests ++ [rec] ∧
          rec.cache_read_tokens = 0 ∧ rec.cache_write_tokens = 0)
    ∧ (∀ (reqBody : ProxyReqBody) (data : RespBody)
        (genId today : String) (db : Db),
      (bufferedBranch reqBody 200 data genId today true db).db.requests =
          db.requests ∨
        ∃ rec : ReqRecord,
          (bufferedBranch reqBody 200 data genId today true db).db.requests =
            db.requests ++ [rec] ∧
          rec.cache_read_tokens =
            jsOrInt (data.usage.getD emptyUsage).cache_read_input_tokens 0 ∧
          rec.cache_write_tokens =
            jsOrInt (data.usage.getD emptyUsage).cache_creation_input_tokens 0) := by
  constructor
  · intro reqBody status chunks genId today db
    dsimp only [proxyStreaming]
    split
    · exact logRequest_requests_cache _ _ _ _ rfl rfl
    · exact Or.inl rfl
  · intro reqBody data genId today db
    have h200 : upstreamOk (200 : Nat) = true := by decide
    simp only [bufferedBranch, h200, Bool.not_true, Bool.false_eq_true,
      if_false, if_true]
    rcases logRequest_requests (bufferedLogData reqBody data genId) genId
      today db with h | h
    · exact Or.inl h
    · refine Or.inr ⟨mkRecord (bufferedLogData reqBody data genId) genId today,
        h, ?_, ?_⟩
      · show jsOrInt (some (jsOrInt
          (data.usage.getD emptyUsage).cache_read_input_tokens 0)) 0 = _
        exact jsOrInt_some_jsOrInt _
      · show jsOrInt (some (jsOrInt
          (data.usage.getD emptyUsage).cache_creation_input_tokens 0)) 0 = _
        exact jsOrInt_some_jsOrInt _

end ClaudeMetrics
